import Mathlib

/-!
Shallow embedding of the RTMP camera streamer orchestrator
(`src/streamer.py`) and the relevant parts of its dashboard
(`src/dashboard.py`): configuration store, pipeline-command builder,
session state machine (start/stop/cleanup), status writer and the
dashboard-side status/config readers.  Times are modelled as `Int`
seconds, external effects (file system, camera, process spawning) as
explicit environment values describing where each external call
succeeds or raises.
-/

namespace RTMP

/-- The streaming configuration: the nine fields of the config dict in
`load_config` (streamer.py). -/
structure Config where
  rtmp_url : String
  stream_key : String
  resolution : Nat × Nat
  framerate : Nat
  bitrate : Nat
  gop_size : Nat
  preset : String
  audio_enabled : Bool
  audio_source : String
deriving DecidableEq

/-- Value `default_config` from `RTMPStreamer.load_config` (streamer.py lines 37-47). -/
def default_config : Config :=
  { rtmp_url := "rtmp://a.rtmp.youtube.com/live2/"
    stream_key := "YOUR_STREAM_KEY_HERE"
    resolution := (1920, 1080)
    framerate := 30
    bitrate := 2500000
    gop_size := 60
    preset := "medium"
    audio_enabled := false
    audio_source := "hw:1,0" }

/-- A JSON object holding any subset of the nine config fields: the shape
of a stored config file and of a partial update passed to `save_config`. -/
structure PartialConfig where
  rtmp_url : Option String := none
  stream_key : Option String := none
  resolution : Option (Nat × Nat) := none
  framerate : Option Nat := none
  bitrate : Option Nat := none
  gop_size : Option Nat := none
  preset : Option String := none
  audio_enabled : Option Bool := none
  audio_source : Option String := none
deriving DecidableEq

/-- Python `dict.update`: fields present in `p` override those of `c`. -/
def dictUpdate (c : Config) (p : PartialConfig) : Config :=
  { rtmp_url := p.rtmp_url.getD c.rtmp_url
    stream_key := p.stream_key.getD c.stream_key
    resolution := p.resolution.getD c.resolution
    framerate := p.framerate.getD c.framerate
    bitrate := p.bitrate.getD c.bitrate
    gop_size := p.gop_size.getD c.gop_size
    preset := p.preset.getD c.preset
    audio_enabled := p.audio_enabled.getD c.audio_enabled
    audio_source := p.audio_source.getD c.audio_source }

/-- Serialization `json.dump(self.config, ...)` writes every field of the full config. -/
def allFieldsOf (c : Config) : PartialConfig :=
  { rtmp_url := some c.rtmp_url
    stream_key := some c.stream_key
    resolution := some c.resolution
    framerate := some c.framerate
    bitrate := some c.bitrate
    gop_size := some c.gop_size
    preset := some c.preset
    audio_enabled := some c.audio_enabled
    audio_source := some c.audio_source }

/-- Outcome of reading the stored config file in `load_config`:
the file is absent, `open` raises, `json.load` raises, or a JSON object
`p` is obtained. -/
inductive ConfigFileRead where
  | missing
  | unreadable
  | malformed
  | ok (p : PartialConfig)
deriving DecidableEq

/-- Method `RTMPStreamer.load_config` (streamer.py lines 35-57): start from
`default_config`; if the file exists and parses, `update` the defaults
with the loaded object; any exception is caught and the defaults are
returned. -/
def load_config : ConfigFileRead → Config
  | ConfigFileRead.missing => default_config
  | ConfigFileRead.unreadable => default_config
  | ConfigFileRead.malformed => default_config
  | ConfigFileRead.ok p => dictUpdate default_config p

/-- Method `RTMPStreamer.build_ffmpeg_command` (streamer.py lines 114-164),
translated statement by statement: the base raw-video input arguments,
then (if audio is enabled) the ALSA capture arguments, then the video
encoding arguments, then (if audio is enabled) the AAC encoding
arguments, then the FLV/RTMP output arguments. -/
def build_ffmpeg_command (c : Config) : List String :=
  let rtmp_url := c.rtmp_url ++ c.stream_key
  let cmd := ["ffmpeg", "-f", "rawvideo", "-pix_fmt", "rgb24",
    "-s", toString c.resolution.1 ++ "x" ++ toString c.resolution.2,
    "-r", toString c.framerate,
    "-i", "-"]
  let cmd := if c.audio_enabled then
      cmd ++ ["-f", "alsa", "-i", c.audio_source, "-ac", "2", "-ar", "44100"]
    else cmd
  let cmd := cmd ++ ["-c:v", "libx264",
    "-preset", c.preset,
    "-b:v", toString c.bitrate,
    "-maxrate", toString c.bitrate,
    "-bufsize", toString (c.bitrate * 2),
    "-pix_fmt", "yuv420p",
    "-g", toString c.gop_size,
    "-keyint_min", toString c.gop_size,
    "-sc_threshold", "0"]
  let cmd := if c.audio_enabled then cmd ++ ["-c:a", "aac", "-b:a", "128k"] else cmd
  cmd ++ ["-f", "flv", "-flvflags", "no_duration_filesize", rtmp_url]

/-- Spec-side (§4.2 PipelineSpec): the input framing stage. -/
def spec_input_stage (c : Config) : List String :=
  ["ffmpeg", "-f", "rawvideo", "-pix_fmt", "rgb24",
   "-s", toString c.resolution.1 ++ "x" ++ toString c.resolution.2,
   "-r", toString c.framerate,
   "-i", "-"]

/-- Spec-side (§4.2): the optional audio capture branch, present exactly
when `audio_enabled` is set, with fixed channel count and sample rate. -/
def spec_audio_capture (c : Config) : List String :=
  if c.audio_enabled then
    ["-f", "alsa", "-i", c.audio_source, "-ac", "2", "-ar", "44100"]
  else []

/-- Spec-side (§4.2): the video encode parameters. -/
def spec_video_encode (c : Config) : List String :=
  ["-c:v", "libx264",
   "-preset", c.preset,
   "-b:v", toString c.bitrate,
   "-maxrate", toString c.bitrate,
   "-bufsize", toString (c.bitrate * 2),
   "-pix_fmt", "yuv420p",
   "-g", toString c.gop_size,
   "-keyint_min", toString c.gop_size,
   "-sc_threshold", "0"]

/-- Spec-side (§4.2): the optional audio encode parameters, present
exactly when `audio_enabled` is set. -/
def spec_audio_encode (c : Config) : List String :=
  if c.audio_enabled then ["-c:a", "aac", "-b:a", "128k"] else []

/-- Spec-side (§4.2): the output stage, a live FLV container omitting
duration/size metadata, targeting endpoint URL concatenated with the
stream key. -/
def spec_output_stage (c : Config) : List String :=
  ["-f", "flv", "-flvflags", "no_duration_filesize", c.rtmp_url ++ c.stream_key]

/-- Shared decomposition lemma: the command built from the source equals
the concatenation of the five spec-side stages. -/
theorem build_ffmpeg_command_decomp (c : Config) :
    build_ffmpeg_command c =
      spec_input_stage c ++ spec_audio_capture c ++ spec_video_encode c ++
        spec_audio_encode c ++ spec_output_stage c := by
  cases h : c.audio_enabled <;>
    simp [build_ffmpeg_command, spec_input_stage, spec_audio_capture,
      spec_video_encode, spec_audio_encode, spec_output_stage, h]

/-- The status snapshot written by `write_status` (streamer.py lines
241-248): note it carries a precomputed `uptime_seconds` alongside the
start timestamp.  Timestamps are `Int` seconds. -/
structure Status where
  streaming : Bool
  start_time : Option Int
  uptime_seconds : Int
  resolution : Nat × Nat
  framerate : Nat
  bitrate : Nat
deriving DecidableEq

/-- The content of an on-disk JSON file: absent, a fully written value,
or corrupt — truncated or partially written, as left behind when
`open(target, 'w')` succeeded but the dump raised partway. -/
inductive DiskFile (α : Type) where
  | absent
  | valid (a : α)
  | corrupt
deriving DecidableEq

/-- The fully written value of a file, if it holds one. -/
def DiskFile.toOption {α : Type} : DiskFile α → Option α
  | DiskFile.valid a => some a
  | _ => none

/-- Where a `open(target, 'w')` + `json.dump` write fails, if at all:
before the open (`makedirs` or `open` raising — the target is
untouched), or during the dump (the open already truncated the target,
which is left corrupt). -/
inductive WriteOutcome where
  | ok
  | failBeforeOpen
  | failDuringDump
deriving DecidableEq

/-- The mutable state of an `RTMPStreamer` instance together with the
two files it persists to.  `camera` and `output` model `self.camera`
and `self.output` (held handle or `None`); `config_file` and
`status_file` model the on-disk JSON files, including the corrupt
content left by a write that failed after truncating the target. -/
structure SState where
  config : Config
  camera : Option Unit
  output : Option Unit
  streaming : Bool
  start_time : Option Int
  config_file : DiskFile PartialConfig
  status_file : DiskFile Status
deriving DecidableEq

/-- Observable events of a control operation, used to state that cleanup
was (not) attempted and the status file was (not) written. -/
inductive Ev where
  | cleanupCall
  | statusWriteAttempt (st : Status)
deriving DecidableEq

/-- The status dict assembled by `write_status` (streamer.py lines
241-248): `uptime_seconds` is `now - start_time` when a start time is
set, else `0`. -/
def mkStatus (now : Int) (s : SState) : Status :=
  { streaming := s.streaming
    start_time := s.start_time
    uptime_seconds := match s.start_time with
      | some t => now - t
      | none => 0
    resolution := s.config.resolution
    framerate := s.config.framerate
    bitrate := s.config.bitrate }

/-- Method `RTMPStreamer.write_status` (streamer.py lines 239-255): build the
status dict and write it to the status file with `open(status_file, 'w')`
then `json.dump`; a write failure is caught and only logged, but a
failure during the dump has already truncated the target, leaving it
corrupt. -/
def write_status (w : WriteOutcome) (now : Int) (s : SState) : SState :=
  match w with
  | WriteOutcome.ok => { s with status_file := DiskFile.valid (mkStatus now s) }
  | WriteOutcome.failBeforeOpen => s
  | WriteOutcome.failDuringDump => { s with status_file := DiskFile.corrupt }

/-- Method `RTMPStreamer.cleanup` (streamer.py lines 226-237): if a camera
handle is held, stop and close it and clear both handles; an exception
inside the `try` (modelled by `raises`) is caught, leaving the handles
as they were. -/
def cleanup (raises : Bool) (s : SState) : SState :=
  match s.camera with
  | none => { s with output := none }
  | some _ => if raises then s else { s with camera := none, output := none }

/-- Where `setup_camera` fails: the `Picamera2()` constructor raises
(no handle assigned), configuration raises (handle already assigned),
or everything succeeds. -/
inductive SetupOutcome where
  | ctorRaises
  | configureRaises
  | ok
deriving DecidableEq

/-- Method `RTMPStreamer.setup_camera` (streamer.py lines 89-112): assigns
`self.camera = Picamera2()` then configures it; any exception is caught
and `False` is returned, leaving `self.camera` set when the constructor
had already succeeded. -/
def setup_camera (o : SetupOutcome) (s : SState) : Bool × SState :=
  match o with
  | SetupOutcome.ctorRaises => (false, s)
  | SetupOutcome.configureRaises => (false, { s with camera := some () })
  | SetupOutcome.ok => (true, { s with camera := some () })

/-- The external outcomes of one `start_stream` call: where camera setup
fails, whether `FfmpegOutput(...)`, `camera.start()` or
`start_recording` raise, whether `cleanup` itself raises internally,
whether the status-file write succeeds, and the current clock. -/
structure StartEnv where
  setup : SetupOutcome
  outputCtorRaises : Bool
  camStartRaises : Bool
  recordRaises : Bool
  cleanupRaises : Bool
  statusWrite : WriteOutcome
  now : Int
deriving DecidableEq

/-- Method `RTMPStreamer.start_stream` (streamer.py lines 166-205).  Returns
the boolean result, the new state, and the observable events.  If
already streaming it returns `False` untouched.  If `setup_camera`
returns `False` the method returns `False` directly — without calling
`cleanup`.  An exception anywhere later in the `try` is caught, runs
`cleanup`, and returns `False`.  On success the streaming flag and
start time are set and the status file is written. -/
def start_stream (env : StartEnv) (s : SState) : Bool × SState × List Ev :=
  if s.streaming then (false, s, [])
  else
    match setup_camera env.setup s with
    | (false, s1) => (false, s1, [])
    | (true, s1) =>
      if env.outputCtorRaises then
        (false, cleanup env.cleanupRaises s1, [Ev.cleanupCall])
      else
        let s2 := { s1 with output := some () }
        if env.camStartRaises then
          (false, cleanup env.cleanupRaises s2, [Ev.cleanupCall])
        else if env.recordRaises then
          (false, cleanup env.cleanupRaises s2, [Ev.cleanupCall])
        else
          let s3 := { s2 with streaming := true, start_time := some env.now }
          let st := mkStatus env.now s3
          (true, write_status env.statusWrite env.now s3,
            [Ev.statusWriteAttempt st])

/-- External outcomes of one `stop_stream` call. -/
structure StopEnv where
  cleanupRaises : Bool
  statusWrite : WriteOutcome
  now : Int
deriving DecidableEq

/-- Method `RTMPStreamer.stop_stream` (streamer.py lines 207-224): returns
`False` untouched when not streaming; otherwise runs `cleanup`, clears
the streaming flag and start time, writes the status file, and returns
`True` (`cleanup` and `write_status` catch their own exceptions, so the
outer `except` is never reached). -/
def stop_stream (env : StopEnv) (s : SState) : Bool × SState × List Ev :=
  if s.streaming then
    let s1 := cleanup env.cleanupRaises s
    let s2 := { s1 with streaming := false, start_time := none }
    let st := mkStatus env.now s2
    (true, write_status env.statusWrite env.now s2,
      [Ev.cleanupCall, Ev.statusWriteAttempt st])
  else (false, s, [])

/-- Method `RTMPStreamer.save_config` (streamer.py lines 59-70): merges the
partial update into `self.config` first, then tries to write the merged
config with `open(self.config_file, 'w')` then `json.dump`; any write
failure is caught and returns `False` with the in-memory merge already
done and not rolled back.  A failure before the open (`makedirs` or
`open` raising) leaves the file untouched; a failure during the dump
has already truncated the target, leaving it corrupt. -/
def save_config (w : WriteOutcome) (s : SState) (p : PartialConfig) :
    Bool × SState :=
  let merged := dictUpdate s.config p
  match w with
  | WriteOutcome.ok =>
    (true,
      { s with
          config := merged
          config_file := DiskFile.valid (allFieldsOf merged) })
  | WriteOutcome.failBeforeOpen => (false, { s with config := merged })
  | WriteOutcome.failDuringDump =>
    (false,
      { s with
          config := merged
          config_file := DiskFile.corrupt })

/-- Outcome of reading the status file in `get_stream_status`
(dashboard.py): absent, raising while opening/parsing, or parsed. -/
inductive StatusFileRead where
  | missing
  | unreadable
  | ok (st : Status)
deriving DecidableEq

/-- The dict returned by `get_stream_status`: the parsed status fields
(absent on the fallback path), plus the `uptime` key the reader derives
at read time (in seconds; the source formats it as a string). -/
structure StreamView where
  streaming : Bool
  start_time : Option Int := none
  uptime_seconds : Option Int := none
  uptime : Option Int := none
  resolution : Nat × Nat
  framerate : Nat
  bitrate : Nat
deriving DecidableEq

/-- Function `get_stream_status` (dashboard.py lines 59-79): on a parsed status
with `streaming` set and a start time present, adds
`uptime = now - start_time` computed at read time; on a missing or
unreadable file returns the default view with `uptime` zero. -/
def get_stream_status (r : StatusFileRead) (now : Int) : StreamView :=
  match r with
  | StatusFileRead.ok st =>
    match st.start_time with
    | some t =>
      if st.streaming then
        { streaming := st.streaming
          start_time := st.start_time
          uptime_seconds := some st.uptime_seconds
          uptime := some (now - t)
          resolution := st.resolution
          framerate := st.framerate
          bitrate := st.bitrate }
      else
        { streaming := st.streaming
          start_time := st.start_time
          uptime_seconds := some st.uptime_seconds
          resolution := st.resolution
          framerate := st.framerate
          bitrate := st.bitrate }
    | none =>
      { streaming := st.streaming
        start_time := none
        uptime_seconds := some st.uptime_seconds
        resolution := st.resolution
        framerate := st.framerate
        bitrate := st.bitrate }
  | _ =>
    { streaming := false
      uptime := some 0
      resolution := (1920, 1080)
      framerate := 30
      bitrate := 2500000 }

/-- Result of the dashboard config POST route. -/
inductive ApiResult where
  | okResp
  | badRequest (msg : String)
  | serverError (msg : String)
deriving DecidableEq

/-- The POST branch of `api_config` (dashboard.py lines 227-235) with
the dashboard-side `save_config` (lines 177-186) inlined: if the POSTED
body's `stream_key` is missing or empty ("falsy"), respond 400 and do
not touch the file; otherwise write the posted object wholesale to the
config file, responding 500 on a write failure. -/
def api_config_post (posted : PartialConfig) (disk : Option PartialConfig)
    (writeOk : Bool) : ApiResult × Option PartialConfig :=
  if posted.stream_key = none ∨ posted.stream_key = some "" then
    (ApiResult.badRequest "Stream key required", disk)
  else if writeOk then
    (ApiResult.okResp, some posted)
  else
    (ApiResult.serverError "Failed to save config", disk)

/-- A file-system operation performed by a persisting writer, carrying
the value being serialized. -/
inductive FsOp (α : Type) where
  | openTrunc (path : String)
  | writeAll (path : String) (data : α)
  | closeFile (path : String)
  | renameFile (src dst : String)
deriving DecidableEq

/-- The config file path (streamer.py line 20). -/
def CONFIG_FILE : String := "/home/pi/streamer/config.json"

/-- The status file path (streamer.py line 251). -/
def STATUS_FILE : String := "/home/pi/streamer/status.json"

/-- The file operations `save_config` performs on a successful write
(streamer.py lines 64-65): `open(self.config_file, 'w')` truncates the
target in place, then the merged config is dumped and the file closed. -/
def save_config_fs_trace (merged : Config) : List (FsOp Config) :=
  [FsOp.openTrunc CONFIG_FILE,
   FsOp.writeAll CONFIG_FILE merged,
   FsOp.closeFile CONFIG_FILE]

/-- The file operations `write_status` performs on a successful write
(streamer.py lines 252-253): `open(status_file, 'w')` truncates the
target in place, then the status dict is dumped and the file closed. -/
def write_status_fs_trace (st : Status) : List (FsOp Status) :=
  [FsOp.openTrunc STATUS_FILE,
   FsOp.writeAll STATUS_FILE st,
   FsOp.closeFile STATUS_FILE]

/-- Whether a trace open-truncates `target` in place. -/
def opensTargetInPlace {α : Type} (tr : List (FsOp α)) (target : String) : Bool :=
  tr.any fun op => match op with
    | FsOp.openTrunc p => p == target
    | _ => false

/-- Whether a trace ever renames anything onto `target`. -/
def renamesOntoTarget {α : Type} (tr : List (FsOp α)) (target : String) : Bool :=
  tr.any fun op => match op with
    | FsOp.renameFile _ d => d == target
    | _ => false

/-- Modelled from the spec: "write to a temporary location and
atomically replace the target file" — the target is never opened for
in-place truncation and is produced only by a rename. -/
def crashSafeSpec {α : Type} (tr : List (FsOp α)) (target : String) : Prop :=
  opensTargetInPlace tr target = false ∧ renamesOntoTarget tr target = true

/-- An idle streamer right after construction with no stored files. -/
def idleState : SState :=
  { config := default_config
    camera := none
    output := none
    streaming := false
    start_time := none
    config_file := DiskFile.absent
    status_file := DiskFile.absent }

/-- A streamer with an active session started at time 100. -/
def streamingState : SState :=
  { idleState with
      camera := some ()
      output := some ()
      streaming := true
      start_time := some 100 }

/-- A config whose stream key is set to a real-looking key. -/
def keyedConfig : Config :=
  { default_config with stream_key := "live_abc" }

/-- A streamer holding `keyedConfig` with it already persisted. -/
def keyedState : SState :=
  { idleState with
      config := keyedConfig
      config_file := DiskFile.valid (allFieldsOf keyedConfig) }

/-- A config update that sets the stream key to the empty string. -/
def emptyKeyUpdate : PartialConfig :=
  { stream_key := some "" }

/-- A start environment where the camera object is constructed but its
configuration raises, so `setup_camera` returns `False`. -/
def configureFailEnv : StartEnv :=
  { setup := SetupOutcome.configureRaises
    outputCtorRaises := false
    camStartRaises := false
    recordRaises := false
    cleanupRaises := false
    statusWrite := WriteOutcome.ok
    now := 0 }

/-- A fully successful start environment at time 500. -/
def okStartEnv : StartEnv :=
  { setup := SetupOutcome.ok
    outputCtorRaises := false
    camStartRaises := false
    recordRaises := false
    cleanupRaises := false
    statusWrite := WriteOutcome.ok
    now := 500 }

/-- A fully successful stop environment at time 600. -/
def okStopEnv : StopEnv :=
  { cleanupRaises := false
    statusWrite := WriteOutcome.ok
    now := 600 }

/-- C1: a start request from `Idle` whose camera setup fails after the
device object was constructed (configuration raises) makes
`start_stream` report failure, yet the camera handle is still held and
no cleanup call was made: the code violates the cleanup-before-failure
invariant the claim states. -/
theorem C1_start_failure_leaks_camera :
    (start_stream configureFailEnv idleState).1 = false ∧
    (start_stream configureFailEnv idleState).2.1.camera = some () ∧
    (start_stream configureFailEnv idleState).2.1.streaming = false ∧
    Ev.cleanupCall ∉ (start_stream configureFailEnv idleState).2.2 := by
  decide

/-- C2, counterexample: saving a partial update whose merged result has
an empty stream key through the streamer's `save_config` succeeds and
rewrites the stored file — the claim that such a save always fails and
leaves the file unchanged is false. -/
theorem C2_counterexample :
    (dictUpdate keyedState.config emptyKeyUpdate).stream_key = "" ∧
    (save_config WriteOutcome.ok keyedState emptyKeyUpdate).1 = true ∧
    (save_config WriteOutcome.ok keyedState emptyKeyUpdate).2.config_file ≠
      keyedState.config_file := by
  decide

/-- C2, amended: the dashboard config endpoint rejects a POSTed body
whose stream key is missing or empty with a 400 response and leaves the
stored file unchanged; the check is on the posted body, not the merged
result, and the streamer's own `save_config` does not validate the key
at all. -/
theorem C2_dashboard_rejects_empty_key (posted : PartialConfig)
    (disk : Option PartialConfig) (writeOk : Bool)
    (h : posted.stream_key = none ∨ posted.stream_key = some "") :
    (api_config_post posted disk writeOk).1 =
      ApiResult.badRequest "Stream key required" ∧
    (api_config_post posted disk writeOk).2 = disk := by
  unfold api_config_post
  rw [if_pos h]
  exact ⟨rfl, rfl⟩

/-- C2, witness: the amended theorem at a concrete empty-key body. -/
theorem C2_dashboard_rejects_empty_key_witness :
    (api_config_post emptyKeyUpdate none true).1 =
      ApiResult.badRequest "Stream key required" ∧
    (api_config_post emptyKeyUpdate none true).2 = none :=
  C2_dashboard_rejects_empty_key emptyKeyUpdate none true (Or.inr rfl)

/-- C3, counterexample: a status snapshot persisted by `write_status`
contains a precomputed uptime duration — writing the same session state
at times 160 and 170 stores `uptime_seconds` 60 and 70 respectively, so
the claim that no precomputed duration is ever stored is false. -/
theorem C3_counterexample :
    ((write_status WriteOutcome.ok 160 streamingState).status_file.toOption.map
      Status.uptime_seconds) = some 60 ∧
    ((write_status WriteOutcome.ok 170 streamingState).status_file.toOption.map
      Status.uptime_seconds) = some 70 := by
  decide

/-- C3, amended: every persisted snapshot contains the start timestamp
and additionally a precomputed `uptime_seconds` equal to write time
minus start time; the dashboard reader nevertheless derives its
displayed uptime from the stored start timestamp at read time, so two
reads separated by a known delay differ by exactly that delay. -/
theorem C3_uptime_derived_at_read (s : SState) (t now₁ now₂ : Int)
    (hstream : s.streaming = true) (hstart : s.start_time = some t) :
    (mkStatus now₁ s).start_time = some t ∧
    (mkStatus now₁ s).uptime_seconds = now₁ - t ∧
    (get_stream_status (StatusFileRead.ok (mkStatus now₁ s)) now₂).uptime =
      some (now₂ - t) ∧
    ∀ now₃ : Int,
      (get_stream_status (StatusFileRead.ok (mkStatus now₁ s)) now₃).uptime.getD 0 -
        (get_stream_status (StatusFileRead.ok (mkStatus now₁ s)) now₂).uptime.getD 0 =
        now₃ - now₂ := by
  refine ⟨?_, ?_, ?_, ?_⟩
  · simp [mkStatus, hstart]
  · simp [mkStatus, hstart]
  · simp [get_stream_status, mkStatus, hstart, hstream]
  · intro now₃
    simp [get_stream_status, mkStatus, hstart, hstream]

/-- C3, witness: the amended theorem at the concrete streaming state
started at 100, written at 160 and read at 200. -/
theorem C3_uptime_derived_at_read_witness :
    (mkStatus 160 streamingState).start_time = some 100 ∧
    (mkStatus 160 streamingState).uptime_seconds = 160 - 100 ∧
    (get_stream_status (StatusFileRead.ok (mkStatus 160 streamingState)) 200).uptime =
      some (200 - 100) ∧
    ∀ now₃ : Int,
      (get_stream_status (StatusFileRead.ok (mkStatus 160 streamingState)) now₃).uptime.getD 0 -
        (get_stream_status (StatusFileRead.ok (mkStatus 160 streamingState)) 200).uptime.getD 0 =
        now₃ - 200 :=
  C3_uptime_derived_at_read streamingState 100 160 200 rfl rfl

/-- C4, counterexample: neither the config writer's nor the status
writer's file operations satisfy the crash-safe pattern the spec
requires (no in-place truncation of the target, target produced by a
rename): both open-truncate the target directly and never rename. -/
theorem C4_counterexample :
    ¬ crashSafeSpec (save_config_fs_trace default_config) CONFIG_FILE ∧
    ¬ crashSafeSpec (write_status_fs_trace (mkStatus 0 idleState)) STATUS_FILE := by
  unfold crashSafeSpec
  decide

/-- C4, amended: for every value written, both persistence paths write
the target file directly in place — they open-truncate the target and
perform no rename — so a concurrent reader can observe a partially
written file. -/
theorem C4_writes_are_in_place (merged : Config) (st : Status) :
    opensTargetInPlace (save_config_fs_trace merged) CONFIG_FILE = true ∧
    renamesOntoTarget (save_config_fs_trace merged) CONFIG_FILE = false ∧
    opensTargetInPlace (write_status_fs_trace st) STATUS_FILE = true ∧
    renamesOntoTarget (write_status_fs_trace st) STATUS_FILE = false :=
  ⟨rfl, rfl, rfl, rfl⟩

/-- C5: for a missing, unreadable or malformed stored config file,
`load_config` returns exactly the full nine-field default configuration
(and, being a total function on read outcomes, never raises). -/
theorem C5_load_defaults (r : ConfigFileRead)
    (h : r = ConfigFileRead.missing ∨ r = ConfigFileRead.unreadable ∨
      r = ConfigFileRead.malformed) :
    load_config r = default_config := by
  rcases h with h | h | h <;> subst h <;> rfl

/-- C5, witness: the theorem at the malformed-file outcome. -/
theorem C5_load_defaults_witness :
    load_config ConfigFileRead.malformed = default_config :=
  C5_load_defaults ConfigFileRead.malformed (Or.inr (Or.inr rfl))

/-- C6: for every configuration the built pipeline command contains the
video-encoder buffer size set to exactly twice the configured bitrate,
and the keyframe interval, minimum keyframe interval and disabled
scene-cut threshold set from the configured GOP size, as one contiguous
run of arguments. -/
theorem C6_encoder_params (c : Config) :
    (∃ l₁ l₂, build_ffmpeg_command c =
      l₁ ++ ["-bufsize", toString (c.bitrate * 2)] ++ l₂) ∧
    (∃ l₁ l₂, build_ffmpeg_command c =
      l₁ ++ ["-g", toString c.gop_size, "-keyint_min", toString c.gop_size,
        "-sc_threshold", "0"] ++ l₂) := by
  constructor
  · refine ⟨spec_input_stage c ++ spec_audio_capture c ++
      ["-c:v", "libx264", "-preset", c.preset, "-b:v", toString c.bitrate,
        "-maxrate", toString c.bitrate],
      ["-pix_fmt", "yuv420p", "-g", toString c.gop_size,
        "-keyint_min", toString c.gop_size, "-sc_threshold", "0"] ++
        spec_audio_encode c ++ spec_output_stage c, ?_⟩
    rw [build_ffmpeg_command_decomp]
    simp [spec_video_encode]
  · refine ⟨spec_input_stage c ++ spec_audio_capture c ++
      ["-c:v", "libx264", "-preset", c.preset, "-b:v", toString c.bitrate,
        "-maxrate", toString c.bitrate, "-bufsize", toString (c.bitrate * 2),
        "-pix_fmt", "yuv420p"],
      spec_audio_encode c ++ spec_output_stage c, ?_⟩
    rw [build_ffmpeg_command_decomp]
    simp [spec_video_encode]

/-- C7: the built pipeline command decomposes into input stage, audio
capture branch, video encode, audio encode and output stage; the two
audio parts are nonempty exactly when `audio_enabled` is set; the
output stage is the live FLV configuration omitting duration/size
metadata, and the command's final argument is the configured endpoint
URL concatenated with the stream key. -/
theorem C7_audio_branch_and_output (c : Config) :
    build_ffmpeg_command c =
      spec_input_stage c ++ spec_audio_capture c ++ spec_video_encode c ++
        spec_audio_encode c ++ spec_output_stage c ∧
    (spec_audio_capture c ≠ [] ↔ c.audio_enabled = true) ∧
    (spec_audio_encode c ≠ [] ↔ c.audio_enabled = true) ∧
    spec_output_stage c =
      ["-f", "flv", "-flvflags", "no_duration_filesize",
        c.rtmp_url ++ c.stream_key] ∧
    (∃ l, build_ffmpeg_command c = l ++ [c.rtmp_url ++ c.stream_key]) := by
  refine ⟨build_ffmpeg_command_decomp c, ?_, ?_, rfl, ?_⟩
  · cases h : c.audio_enabled <;> simp [spec_audio_capture, h]
  · cases h : c.audio_enabled <;> simp [spec_audio_encode, h]
  · refine ⟨spec_input_stage c ++ spec_audio_capture c ++ spec_video_encode c ++
      spec_audio_encode c ++ ["-f", "flv", "-flvflags", "no_duration_filesize"], ?_⟩
    rw [build_ffmpeg_command_decomp]
    simp [spec_output_stage]

/-- C8: a start request while a session is already active returns
failure and leaves the whole state — camera and output handles,
streaming flag, start timestamp, config and status files — unchanged,
with no cleanup or status-write event. -/
theorem C8_start_while_streaming_rejected (env : StartEnv) (s : SState)
    (h : s.streaming = true) :
    start_stream env s = (false, s, []) := by
  simp [start_stream, h]

/-- C8, witness: the theorem at a concrete active session. -/
theorem C8_start_while_streaming_rejected_witness :
    start_stream okStartEnv streamingState = (false, streamingState, []) :=
  C8_start_while_streaming_rejected okStartEnv streamingState rfl

/-- C9: a stop request while idle returns failure and leaves the whole
state — including the status file — unchanged, with no cleanup or
status-write event. -/
theorem C9_stop_while_idle_rejected (env : StopEnv) (s : SState)
    (h : s.streaming = false) :
    stop_stream env s = (false, s, []) := by
  simp [stop_stream, h]

/-- C9, witness: the theorem at the concrete idle state. -/
theorem C9_stop_while_idle_rejected_witness :
    stop_stream okStopEnv idleState = (false, idleState, []) :=
  C9_stop_while_idle_rejected okStopEnv idleState rfl

/-- A config update that only raises the bitrate. -/
def bitrateUpdate : PartialConfig :=
  { bitrate := some 4500000 }

/-- C10, counterexample: a persist that fails during the dump — after
`open(config_file, 'w')` already truncated the target — returns failure
with the in-memory merge done, but the on-disk config file is changed
(clobbered), so the claim's clause that the file on disk is unchanged
is false. -/
theorem C10_counterexample :
    (save_config WriteOutcome.failDuringDump keyedState bitrateUpdate).1 = false ∧
    (save_config WriteOutcome.failDuringDump keyedState bitrateUpdate).2.config =
      dictUpdate keyedState.config bitrateUpdate ∧
    (save_config WriteOutcome.failDuringDump keyedState bitrateUpdate).2.config_file ≠
      keyedState.config_file := by
  decide

/-- C10, amended: when the config-file write fails, `save_config`
returns failure with the in-memory configuration already merged and not
rolled back, so a subsequent pipeline build and the in-effect fields of
a subsequent status snapshot use the merged values; the on-disk file is
unchanged only when the failure precedes the open — a failure during
the dump leaves the target clobbered. -/
theorem C10_failed_save_keeps_merge (s : SState) (p : PartialConfig) (n : Int)
    (w : WriteOutcome) (h : w ≠ WriteOutcome.ok) :
    (save_config w s p).1 = false ∧
    (save_config w s p).2.config = dictUpdate s.config p ∧
    build_ffmpeg_command (save_config w s p).2.config =
      build_ffmpeg_command (dictUpdate s.config p) ∧
    (mkStatus n (save_config w s p).2).resolution =
      (dictUpdate s.config p).resolution ∧
    (mkStatus n (save_config w s p).2).framerate =
      (dictUpdate s.config p).framerate ∧
    (mkStatus n (save_config w s p).2).bitrate =
      (dictUpdate s.config p).bitrate ∧
    (w = WriteOutcome.failBeforeOpen →
      (save_config w s p).2.config_file = s.config_file) ∧
    (w = WriteOutcome.failDuringDump →
      (save_config w s p).2.config_file = DiskFile.corrupt) := by
  cases w with
  | ok => exact absurd rfl h
  | failBeforeOpen => simp [save_config, mkStatus]
  | failDuringDump => simp [save_config, mkStatus]

/-- C10, witness: the amended theorem at a concrete during-dump failure. -/
theorem C10_failed_save_keeps_merge_witness :
    (save_config WriteOutcome.failDuringDump keyedState bitrateUpdate).1 = false ∧
    (save_config WriteOutcome.failDuringDump keyedState bitrateUpdate).2.config =
      dictUpdate keyedState.config bitrateUpdate ∧
    build_ffmpeg_command
        (save_config WriteOutcome.failDuringDump keyedState bitrateUpdate).2.config =
      build_ffmpeg_command (dictUpdate keyedState.config bitrateUpdate) ∧
    (mkStatus 0 (save_config WriteOutcome.failDuringDump keyedState bitrateUpdate).2).resolution =
      (dictUpdate keyedState.config bitrateUpdate).resolution ∧
    (mkStatus 0 (save_config WriteOutcome.failDuringDump keyedState bitrateUpdate).2).framerate =
      (dictUpdate keyedState.config bitrateUpdate).framerate ∧
    (mkStatus 0 (save_config WriteOutcome.failDuringDump keyedState bitrateUpdate).2).bitrate =
      (dictUpdate keyedState.config bitrateUpdate).bitrate ∧
    (WriteOutcome.failDuringDump = WriteOutcome.failBeforeOpen →
      (save_config WriteOutcome.failDuringDump keyedState bitrateUpdate).2.config_file =
        keyedState.config_file) ∧
    (WriteOutcome.failDuringDump = WriteOutcome.failDuringDump →
      (save_config WriteOutcome.failDuringDump keyedState bitrateUpdate).2.config_file =
        DiskFile.corrupt) :=
  C10_failed_save_keeps_merge keyedState bitrateUpdate 0
    WriteOutcome.failDuringDump (by decide)

end RTMP
